import Mathlib

/-!
Verification of the jenv JDK manager (Python sources under `src/jenv/`)
against its natural-language specification.

The Python modules are shallowly embedded: pure string manipulation is
translated to Lean functions on `List Char` / `String`; filesystem,
environment and subprocess effects are threaded through explicit "world"
records whose fields are the oracles the code consults (`exists`,
`is_file`, `resolve`, `subprocess.run`, ...).  Paths are modeled as
POSIX-style component lists (`FsPath`).  Python truthiness of strings
(`if s:`) is modeled as `s ≠ ""`, and `Optional` values as `Option`.
-/

namespace Jenv

/-! ## Basic character / string helpers (Python `str` semantics) -/

/-- Python `str.strip()` whitespace set (ASCII portion of `\s`):
space, tab, newline, carriage return, vertical tab, form feed. -/
def pyIsSpace (c : Char) : Bool :=
  c = ' ' || c = '\t' || c = '\n' || c = '\r' || c = '\x0b' || c = '\x0c'

/-- `str.strip()` on a character list: drop whitespace from both ends. -/
def pyStripL (l : List Char) : List Char :=
  (l.dropWhile pyIsSpace).rdropWhile pyIsSpace

/-- Python `str.strip()`. -/
def pyStrip (s : String) : String := ⟨pyStripL s.data⟩

/-- Does `needle` occur at the start of `hay`? -/
def listStartsWith : List Char → List Char → Bool
  | [], _ => true
  | _ :: _, [] => false
  | a :: as, b :: bs => a = b && listStartsWith as bs

/-- Does `needle` occur as a contiguous substring of `hay`?
(Python `needle in hay` for nonempty `needle`.) -/
def listContains (needle : List Char) : List Char → Bool
  | [] => listStartsWith needle []
  | c :: cs => listStartsWith needle (c :: cs) || listContains needle cs

/-- Python `sub in s` (substring containment). -/
def pyContains (sub s : String) : Bool := listContains sub.data s.data

/-- Python `s.startswith(pre)`. -/
def pyStartsWith (pre s : String) : Bool := listStartsWith pre.data s.data

/-- Python `s.endswith(suf)`. -/
def pyEndsWith (suf s : String) : Bool :=
  listStartsWith suf.data.reverse s.data.reverse

/-- ASCII lower-casing of one character (Python `str.lower` on ASCII). -/
def pyLowerChar (c : Char) : Char :=
  if 'A' ≤ c ∧ c ≤ 'Z' then Char.ofNat (c.toNat + 32) else c

/-- Python `s.lower()` (ASCII). -/
def pyLower (s : String) : String := ⟨s.data.map pyLowerChar⟩

/-- Split a character list on a separator character; mirrors how the
embedding reconstructs Python's line structure and `/`-separated paths. -/
def splitOnChar (sep : Char) : List Char → List (List Char)
  | [] => [[]]
  | c :: cs =>
    if c = sep then [] :: splitOnChar sep cs
    else
      match splitOnChar sep cs with
      | [] => [[c]]
      | l :: ls => (c :: l) :: ls

/-- Join character lists with a separator character (inverse of
`splitOnChar` on separator-free pieces). -/
def joinWithChar (sep : Char) : List (List Char) → List Char
  | [] => []
  | [l] => l
  | l :: ls => l ++ sep :: joinWithChar sep ls

/-! ## Paths

A filesystem path is a list of components; `pathStr` renders it the way
Python's `str(Path(...))` renders an absolute POSIX path, and `pathName`
is `Path.name` (the leaf component, `""` for the root). -/

abbrev FsPath := List String

def pathStr (p : FsPath) : String :=
  ⟨'/' :: joinWithChar '/' (p.map String.data)⟩

def pathName (p : FsPath) : String := (p.getLast?).getD ""

/-- Parse an absolute POSIX path string into components
(Python `Path(s)` for the absolute strings the tool handles). -/
def parsePath (s : String) : FsPath :=
  ((splitOnChar '/' s.data).filter (· ≠ [])).map fun l => ⟨l⟩

/-! ## `discovery.JdkInfo` (src/jenv/discovery.py, lines 11-29)

`version`, `name`, `path`, `vendor`, `is_jenv_managed`, with `__eq__`
and `__hash__` defined on `path` alone. -/

structure JdkInfo where
  version : String
  name : String
  path : FsPath
  vendor : Option String := none
  is_jenv_managed : Bool := false
deriving DecidableEq

/-- `JdkInfo.__eq__`: `self.path == other.path`. -/
def JdkInfo.pyEq (a b : JdkInfo) : Bool := decide (a.path = b.path)

/-- `JdkInfo.__hash__`: `hash(self.path)`, for an arbitrary hash
function on paths. -/
def JdkInfo.pyHash (hashPath : FsPath → Nat) (j : JdkInfo) : Nat :=
  hashPath j.path

/-! ## Version cleaning (src/jenv/discovery.py, line 58)

`re.sub(r"([^\-+\s]+).*", r"\1", raw_version)`: the regex engine scans
left to right; `[^-+\s]` and `.` both exclude `'\n'`, so every match
lies within one line.  Within a line the first match starts at the
first character outside `{-, +, whitespace}`, its group 1 is the
maximal run of such characters, and `.*` greedily extends the match to
the end of the line, so the substitution keeps the line's leading
separator run, keeps the first non-separator run, and deletes the rest
of the line; lines with no match are kept whole. -/

/-- A character at which the cleaning regex `[^-+\s]` stops. -/
def isSepChar (c : Char) : Bool := c = '-' || c = '+' || pyIsSpace c

/-- A character matched by the cleaning regex class `[^-+\s]`. -/
def notSepChar (c : Char) : Bool := !isSepChar c

/-- Action of `re.sub(r"([^\-+\s]+).*", r"\1", ·)` on one
newline-free line. -/
def cleanVersionLine (l : List Char) : List Char :=
  let rest := l.dropWhile isSepChar
  if rest = [] then l
  else l.takeWhile isSepChar ++ rest.takeWhile notSepChar

/-- `re.sub(r"([^\-+\s]+).*", r"\1", ·)` on a character list. -/
def cleanVersionL (l : List Char) : List Char :=
  joinWithChar '\n' ((splitOnChar '\n' l).map cleanVersionLine)

/-- The version-cleaning substitution of `get_java_version_from_path`. -/
def cleanVersion (s : String) : String := ⟨cleanVersionL s.data⟩

/-! ## VersionProbe: `discovery.get_java_version_from_path`
(src/jenv/discovery.py, lines 32-69)

The subprocess call `subprocess.run([java_exe, "-XshowSettings:properties",
"-version"], ...)` either completes with some diagnostic-stream text or
raises; the `except` clause at discovery.py line 63 catches exactly
`(TimeoutExpired, FileNotFoundError, UnicodeDecodeError)`, and any
other exception (e.g. `PermissionError` when `bin/java` exists but is
not executable, `IsADirectoryError` when a directory is named `java`)
propagates out of the function.

`RunJavaOutcome` / `ProbeWorld` cover the executions in which the call
completes or raises one of the three caught types; on these worlds the
function totalises to `Option String`.  The resolver and scanner
embeddings below are stated over such worlds.  The full outcome space,
uncaught exception types included, is `RunJavaOutcomeFull` /
`ProbeWorldFull` further down, over which the function is embedded with
its propagating error path (`get_java_version_from_path_full`). -/

inductive RunJavaOutcome where
  | timeoutExpired
  | fileNotFoundError
  | unicodeDecodeError
  | completed (stderrText : String)
deriving DecidableEq

structure ProbeWorld where
  isWindows : Bool
  exeExists : FsPath → Bool
  runJava : FsPath → RunJavaOutcome

/-- `"java.exe" if platform.system() == "Windows" else "java"`. -/
def javaExeName (isWindows : Bool) : String :=
  if isWindows then "java.exe" else "java"

/-- `re.search(key ++ "(.*)", s)` for a literal nonempty `key`: find the
first occurrence of `key` and capture the remainder of that line. -/
def findCapture (key : List Char) : List Char → Option (List Char)
  | [] => none
  | c :: cs =>
    if listStartsWith key (c :: cs) then
      some (((c :: cs).drop key.length).takeWhile (fun x => x ≠ '\n'))
    else findCapture key cs

/-- `discovery.get_java_version_from_path`: locate `bin/java`
(`.exe` on Windows), run it, parse `java.runtime.version` (falling back
to `java.version`) out of the diagnostic stream, strip and clean the
captured value.  Every failure branch returns `none`. -/
def get_java_version_from_path (w : ProbeWorld) (java_home : FsPath) :
    Option String :=
  let java_exe := java_home ++ ["bin", javaExeName w.isWindows]
  if !w.exeExists java_exe then none
  else
    match w.runJava java_home with
    | .timeoutExpired => none
    | .fileNotFoundError => none
    | .unicodeDecodeError => none
    | .completed stderrText =>
      let m :=
        match findCapture "java.runtime.version = ".data stderrText.data with
        | some g => some g
        | none => findCapture "java.version = ".data stderrText.data
      match m with
      | some g => some (cleanVersion (pyStrip ⟨g⟩))
      | none => none

/-! The probe over the full outcome space of `subprocess.run`.
`Path.exists()` is true for a non-executable regular file and for a
directory, and nothing in `get_java_version_from_path` or in
`util.get_active_jdk_path_from_env` checks the execute bit or
`is_file`, so the spawn can raise exception types outside the caught
triple; those leave the function as exceptions. -/

inductive RunJavaOutcomeFull where
  | timeoutExpired
  | fileNotFoundError
  | unicodeDecodeError
  | permissionError
  | isADirectoryError
  | completed (stderrText : String)
deriving DecidableEq

structure ProbeWorldFull where
  isWindows : Bool
  exeExists : FsPath → Bool
  runJava : FsPath → RunJavaOutcomeFull

/-- An exception escaping `get_java_version_from_path` to its caller. -/
inductive ProbeEscape where
  | permissionError
  | isADirectoryError
deriving DecidableEq

/-- `discovery.get_java_version_from_path` over the full outcome space:
the `except (subprocess.TimeoutExpired, FileNotFoundError,
UnicodeDecodeError)` clause turns exactly those three types into
`None`; every other exception raised by the spawn propagates
(`.error`). -/
def get_java_version_from_path_full (w : ProbeWorldFull)
    (java_home : FsPath) : Except ProbeEscape (Option String) :=
  let java_exe := java_home ++ ["bin", javaExeName w.isWindows]
  if !w.exeExists java_exe then .ok none
  else
    match w.runJava java_home with
    | .timeoutExpired => .ok none
    | .fileNotFoundError => .ok none
    | .unicodeDecodeError => .ok none
    | .permissionError => .error .permissionError
    | .isADirectoryError => .error .isADirectoryError
    | .completed stderrText =>
      let m :=
        match findCapture "java.runtime.version = ".data stderrText.data with
        | some g => some g
        | none => findCapture "java.version = ".data stderrText.data
      match m with
      | some g => .ok (some (cleanVersion (pyStrip ⟨g⟩)))
      | none => .ok none

/-! ## IdentityResolver: `discovery.get_jdk_name_and_vendor`
(src/jenv/discovery.py, lines 71-120) -/

def isAsciiAlphaNum (c : Char) : Bool :=
  ('a' ≤ c && c ≤ 'z') || ('A' ≤ c && c ≤ 'Z') || ('0' ≤ c && c ≤ '9')

/-- Regex class `[a-zA-Z0-9-]` (kept by the directory-name sanitizer). -/
def keepDirChar (c : Char) : Bool := isAsciiAlphaNum c || c = '-'

/-- Regex class `[a-zA-Z0-9.-]` (kept by the final name sanitizer). -/
def keepNameChar (c : Char) : Bool := isAsciiAlphaNum c || c = '.' || c = '-'

/-- `re.sub(r"[^X]+", "-", ·)`: every maximal run of characters outside
the kept class becomes a single hyphen.  The boolean argument records
whether the previous character was part of such a run. -/
def collapseRunsAux (keep : Char → Bool) : Bool → List Char → List Char
  | _, [] => []
  | prevBad, c :: cs =>
    if keep c then c :: collapseRunsAux keep false cs
    else if prevBad then collapseRunsAux keep prevBad cs
    else '-' :: collapseRunsAux keep true cs

def collapseRuns (keep : Char → Bool) (l : List Char) : List Char :=
  collapseRunsAux keep false l

/-- Python `s.strip(c)` for a single strip character. -/
def stripChar (c : Char) (l : List Char) : List Char :=
  (l.dropWhile (· = c)).rdropWhile (· = c)

/-- Python `"-".join(parts)`. -/
def joinHyphen (parts : List String) : String :=
  ⟨joinWithChar '-' (parts.map String.data)⟩

/-- `discovery.get_jdk_name_and_vendor`: vendor heuristics in source
order (first match wins), then canonical-name derivation. -/
def get_jdk_name_and_vendor (java_home : FsPath) (version : Option String) :
    String × Option String :=
  let path_str := pyLower (pathStr java_home)
  let dir_name_lower := pyLower (pathName java_home)
  let vendor : Option String :=
    if pyContains "temurin" path_str || pyContains "adoptium" dir_name_lower then
      some "Temurin"
    else if pyContains "oracle" path_str ||
        (pyStartsWith "jdk-" dir_name_lower &&
          !pyContains "openjdk" dir_name_lower) then
      some "Oracle"
    else if pyContains "amazon-corretto" path_str ||
        pyContains "corretto" dir_name_lower then
      some "Amazon Corretto"
    else if pyContains "zulu" dir_name_lower then some "Zulu"
    else if pyContains "graalvm" dir_name_lower then some "GraalVM"
    else if pyContains "openjdk" dir_name_lower ||
        pyContains "openjdk" path_str then
      some "OpenJDK"
    else if pyStartsWith "jdk" dir_name_lower ||
        pyContains "java-" dir_name_lower then
      some "OpenJDK"
    else none
  let current_name_part : String :=
    match vendor with
    | some v => ⟨(pyLower v).data.filter (fun c => c ≠ ' ')⟩
    | none => ⟨stripChar '-' (collapseRuns keepDirChar dir_name_lower.data)⟩
  let name_parts : List String :=
    current_name_part :: (match version with | some v => [v] | none => [])
  let name := joinHyphen (name_parts.filter (· ≠ ""))
  let name : String := ⟨stripChar '-' (collapseRuns keepNameChar name.data)⟩
  let name : String := ⟨name.data.map fun c => if c = '_' then '-' else c⟩
  (if name ≠ "" then name else pathName java_home, vendor)

/-! ## PathScanner: per-root processing of `discovery.discover_system_jdks`
(src/jenv/discovery.py, lines 222-298)

The seeding of `search_paths` (environment variables, per-OS install
tables, the managed-versions directory, the custom-paths file) reads
ambient machine state; the claims under scrutiny concern the processing
loop, which is embedded here over an explicit world.  `found_jdks` is a
Python set of `JdkInfo` (path-keyed) and `processed_paths` a set of
paths, but every `add` in the loop is guarded by a
`... in processed_paths` check, so set insertion order coincides with
list append order and both are modeled as lists. -/

structure ScanWorld where
  probe : ProbeWorld
  pathExists : FsPath → Bool
  isDir : FsPath → Bool
  isFile : FsPath → Bool
  resolveStrict : FsPath → Option FsPath
  children : FsPath → List FsPath
  versionsDirStr : String

/-- `path.resolve(strict=True)` with the `except` fallback to the
unresolved path. -/
def resolveOr (w : ScanWorld) (p : FsPath) : FsPath :=
  (w.resolveStrict p).getD p

/-- The `JdkInfo` record the scanner builds for a verified home. -/
def mkJdkInfo (w : ScanWorld) (p : FsPath) (v : String) : JdkInfo :=
  { version := v
    name := (get_jdk_name_and_vendor p (some v)).1
    path := p
    vendor := (get_jdk_name_and_vendor p (some v)).2
    is_jenv_managed := pyContains w.versionsDirStr (pathStr p) }

/-- Body of the child loop (`for item in resolved_base_path.iterdir()`),
acting on the `(processed_paths, found_jdks)` state. -/
def scanItem (w : ScanWorld) (st : List FsPath × List JdkInfo)
    (item : FsPath) : List FsPath × List JdkInfo :=
  if w.isDir item then
    let ri := resolveOr w item
    if ri ∈ st.1 then st
    else if w.isFile (ri ++ ["bin", javaExeName w.probe.isWindows]) then
      match get_java_version_from_path w.probe ri with
      | some v =>
        if v ≠ "" then (st.1 ++ [ri], st.2 ++ [mkJdkInfo w ri v]) else st
      | none => st
    else st
  else st

/-- Body of the outer loop (`for base_path in search_paths`): skip
non-directories and already-processed paths, record the root itself when
it probes as a JDK (and then `continue` without iterating inside),
otherwise inspect exactly one level of children. -/
def processRoot (w : ScanWorld) (st : List FsPath × List JdkInfo)
    (base : FsPath) : List FsPath × List JdkInfo :=
  if !(w.pathExists base && w.isDir base) then st
  else
    let rb := resolveOr w base
    if rb ∈ st.1 then st
    else
      let recordedRoot : Option JdkInfo :=
        if w.isFile (rb ++ ["bin", javaExeName w.probe.isWindows]) then
          match get_java_version_from_path w.probe rb with
          | some v => if v ≠ "" then some (mkJdkInfo w rb v) else none
          | none => none
        else none
      match recordedRoot with
      | some info => (st.1 ++ [rb], st.2 ++ [info])
      | none =>
        if w.isDir rb then (w.children rb).foldl (scanItem w) st else st

/-- The processing loop of `discover_system_jdks` over a seeded root
list (the final `(version, name)`-descending sort presents the same
set). -/
def discoverScan (w : ScanWorld) (roots : List FsPath) : List JdkInfo :=
  (roots.foldl (processRoot w) ([], [])).2

/-- Concrete scan world refuting C8 as stated: root `/r` has a regular
file `bin/java` but its probe yields no version, and its child `/r/c` is
a healthy JDK. -/
def scanWorldC8 : ScanWorld :=
  { probe :=
      { isWindows := false
        exeExists := fun _ => true
        runJava := fun p =>
          if p = ["r", "c"] then .completed "java.version = 17.0.1"
          else .completed "no version property here" }
    pathExists := fun _ => true
    isDir := fun p => p = ["r"] || p = ["r", "c"]
    isFile := fun p => p = ["r", "bin", "java"] || p = ["r", "c", "bin", "java"]
    resolveStrict := fun _ => none
    children := fun p => if p = ["r"] then [["r", "c"]] else []
    versionsDirStr := "/home/user/.jenv/versions" }

/-- Concrete scan world for the C8 witness: root `/g` is a healthy JDK. -/
def scanWorldC8good : ScanWorld :=
  { probe :=
      { isWindows := false
        exeExists := fun _ => true
        runJava := fun _ => .completed "java.version = 21" }
    pathExists := fun _ => true
    isDir := fun p => p = ["g"]
    isFile := fun p => p = ["g", "bin", "java"]
    resolveStrict := fun _ => none
    children := fun _ => []
    versionsDirStr := "/v" }

/-! ## Marker files: `util.write_version_file` / `util.read_version_file`
(src/jenv/util.py, lines 9-26)

Both are content transformations around the filesystem: writing stores
`version_name.strip()`; reading returns `content.strip()` when the file
exists (`none` for a missing/unreadable file). -/

/-- Content stored by `util.write_version_file`. -/
def write_version_file (version_name : String) : String := pyStrip version_name

/-- `util.read_version_file` as a function of the stored content
(`none` models a missing or unreadable file). -/
def read_version_file_from (stored : Option String) : Option String :=
  stored.map pyStrip

/-! ## VersionResolver: `main.get_currently_active_jdk`
(src/jenv/main.py, lines 33-85) together with
`util.get_active_jdk_path_from_env` (src/jenv/util.py, lines 28-38)

A `ResolveState` carries the environment variables, the filesystem
oracles the chain consults, and the catalog that the chain's calls to
`discover_system_jdks()` return.  The four Python blocks of the function
become four step functions tried in order. -/

/-- `settings.JENV_VERSION_FILE`. -/
def JENV_VERSION_FILE_NAME : String := ".jenv-version"

structure ResolveState where
  jenvVersionEnv : Option String
  javaHomeEnv : Option String
  exeExistsCheck : FsPath → Bool
  resolve : FsPath → FsPath
  probe : ProbeWorld
  catalog : List JdkInfo
  cwd : FsPath
  markerExists : FsPath → Bool
  readFileRaw : FsPath → Option String
  globalMarkerPath : FsPath
  globalMarkerFileExists : Bool

/-- `util.get_active_jdk_path_from_env`: `JAVA_HOME`, when set and
containing `bin/java`, resolved through symlinks. -/
def get_active_jdk_path_from_env (st : ResolveState) : Option FsPath :=
  match st.javaHomeEnv with
  | some s =>
    if s ≠ "" then
      let p := parsePath s
      if st.exeExistsCheck (p ++ ["bin", javaExeName st.probe.isWindows]) then
        some (st.resolve p)
      else none
    else none
  | none => none

/-- Helper for the upward marker-file walk: the argument is the current
directory's components in reverse, so dropping the head is moving to
the parent directory. -/
def findLocalMarkerAux (markerAt : FsPath → Bool) : List String → Option FsPath
  | [] => if markerAt [] then some [] else none
  | d :: ds =>
    if markerAt (d :: ds).reverse then some (d :: ds).reverse
    else findLocalMarkerAux markerAt ds

/-- The upward marker-file walk of the local-scope block
(src/jenv/main.py, lines 48-56): check each directory from the cwd to
the filesystem root inclusive, nearest first. -/
def findLocalMarkerDir (markerAt : FsPath → Bool) (cwd : FsPath) :
    Option FsPath :=
  findLocalMarkerAux markerAt cwd.reverse

/-- `util.read_version_file` applied to a path of the resolver world. -/
def read_version_file (st : ResolveState) (p : FsPath) : Option String :=
  read_version_file_from (st.readFileRaw p)

/-- The `f"{jdk.name} (shell: JENV_VERSION)"` relabeling. -/
def shellTagged (j : JdkInfo) : JdkInfo :=
  { j with name := j.name ++ " (shell: JENV_VERSION)" }

/-- The `f"{jdk.name} (local: {jenv_version_path})"` relabeling. -/
def localTagged (markerPathStr : String) (j : JdkInfo) : JdkInfo :=
  { j with name := j.name ++ " (local: " ++ markerPathStr ++ ")" }

/-- The `f"{jdk.name} (global: {JENV_GLOBAL_VERSION_FILE})"` relabeling. -/
def globalTagged (globalPathStr : String) (j : JdkInfo) : JdkInfo :=
  { j with name := j.name ++ " (global: " ++ globalPathStr ++ ")" }

/-- The `f"{jdk.name} (JAVA_HOME)"` relabeling. -/
def javaHomeTagged (j : JdkInfo) : JdkInfo :=
  { j with name := j.name ++ " (JAVA_HOME)" }

/-- Shell-scope block (src/jenv/main.py, lines 34-46): a set, nonempty
`JENV_VERSION` is resolved against a live `JAVA_HOME`; the catalog entry
at that home is used when its name or path string equals the token,
else a fresh identity is derived — either way tagged as shell scope. -/
def shellStep (st : ResolveState) : Option JdkInfo :=
  match st.jenvVersionEnv with
  | some tok =>
    if tok ≠ "" then
      match get_active_jdk_path_from_env st with
      | some home =>
        match get_java_version_from_path st.probe home with
        | some v =>
          if v ≠ "" then
            match st.catalog.find? (fun j => decide (j.path = home) &&
                (decide (j.name = tok) || decide (pathStr j.path = tok))) with
            | some j => some (shellTagged j)
            | none =>
              let nv := get_jdk_name_and_vendor home (some v)
              some { version := v, name := nv.1 ++ " (shell: JENV_VERSION)",
                     path := home, vendor := nv.2, is_jenv_managed := false }
          else none
        | none => none
      | none => none
    else none
  | none => none

/-- Local-scope block (src/jenv/main.py, lines 48-64): nearest marker
file upward from the cwd, token matched by exact name or exact path
string against the catalog. -/
def localStep (st : ResolveState) : Option JdkInfo :=
  match findLocalMarkerDir st.markerExists st.cwd with
  | some d =>
    let markerFile := d ++ [JENV_VERSION_FILE_NAME]
    match read_version_file st markerFile with
    | some tok =>
      if tok ≠ "" then
        match st.catalog.find? (fun j => decide (j.name = tok) ||
            decide (pathStr j.path = tok)) with
        | some j => some (localTagged (pathStr markerFile) j)
        | none => none
      else none
    | none => none
  | none => none

/-- Global-scope block (src/jenv/main.py, lines 66-72): the fixed global
marker file, same matching rule. -/
def globalStep (st : ResolveState) : Option JdkInfo :=
  if st.globalMarkerFileExists then
    match read_version_file st st.globalMarkerPath with
    | some tok =>
      if tok ≠ "" then
        match st.catalog.find? (fun j => decide (j.name = tok) ||
            decide (pathStr j.path = tok)) with
        | some j => some (globalTagged (pathStr st.globalMarkerPath) j)
        | none => none
      else none
    | none => none
  else none

/-- `JAVA_HOME` fallback block (src/jenv/main.py, lines 74-83): a
probe-valid `JAVA_HOME`, preferring the catalog entry at that exact
path for its identity. -/
def javaHomeFallbackStep (st : ResolveState) : Option JdkInfo :=
  match get_active_jdk_path_from_env st with
  | some home =>
    match get_java_version_from_path st.probe home with
    | some v =>
      if v ≠ "" then
        match st.catalog.find? (fun j => decide (j.path = home)) with
        | some j => some (javaHomeTagged j)
        | none =>
          let nv := get_jdk_name_and_vendor home (some v)
          some { version := v, name := nv.1 ++ " (JAVA_HOME)", path := home,
                 vendor := nv.2, is_jenv_managed := false }
      else none
    | none => none
  | none => none

/-- `main.get_currently_active_jdk`: the four blocks in order, first
applicable wins, else no active JDK. -/
def get_currently_active_jdk (st : ResolveState) : Option JdkInfo :=
  match shellStep st with
  | some j => some j
  | none =>
    match localStep st with
    | some j => some j
    | none =>
      match globalStep st with
      | some j => some j
      | none => javaHomeFallbackStep st

/-! Scenario builders for the precedence claims: clearing one source of
the chain while leaving the rest of the world untouched. -/

/-- Unset the shell-scope variable (`unset JENV_VERSION`). -/
def clearShell (st : ResolveState) : ResolveState :=
  { st with jenvVersionEnv := none }

/-- Remove every local marker file. -/
def clearLocal (st : ResolveState) : ResolveState :=
  { st with markerExists := fun _ => false }

/-- Remove the global marker file. -/
def clearGlobal (st : ResolveState) : ResolveState :=
  { st with globalMarkerFileExists := false }

/-- Unset `JAVA_HOME`. -/
def clearJavaHome (st : ResolveState) : ResolveState :=
  { st with javaHomeEnv := none }

/-! Concrete resolver states for the C1 witness and the C2
counterexample. -/

def jdkA : JdkInfo :=
  ⟨"17.0.1", "temurin-17.0.1", ["jdks", "a"], some "Temurin", false⟩

def jdkB : JdkInfo :=
  ⟨"11.0.2", "zulu-11.0.2", ["jdks", "b"], some "Zulu", false⟩

def jdkC : JdkInfo :=
  ⟨"8.0.0", "oracle-8.0.0", ["jdks", "c"], some "Oracle", false⟩

/-- Fully populated state: shell variable names `jdkA` (corroborated by
`JAVA_HOME`), a local marker in the cwd names `jdkB`, the global marker
names `jdkC`. -/
def stC1 : ResolveState :=
  { jenvVersionEnv := some "temurin-17.0.1"
    javaHomeEnv := some "/jdks/a"
    exeExistsCheck := fun p => p = ["jdks", "a", "bin", "java"]
    resolve := fun p => p
    probe :=
      { isWindows := false
        exeExists := fun _ => true
        runJava := fun _ => .completed "java.runtime.version = 17.0.1+10\n" }
    catalog := [jdkA, jdkB, jdkC]
    cwd := ["home", "user", "proj"]
    markerExists := fun d => d = ["home", "user", "proj"]
    readFileRaw := fun p =>
      if p = ["home", "user", "proj", ".jenv-version"] then some "zulu-11.0.2\n"
      else if p = ["home", "user", ".jenv", "version"] then some "oracle-8.0.0"
      else none
    globalMarkerPath := ["home", "user", ".jenv", "version"]
    globalMarkerFileExists := true }

/-- State refuting C2 as stated: the only scope source is a global
marker holding `"17"`, which is a substring of exactly one catalog
entry's version and name but equals neither its name nor its path. -/
def stC2 : ResolveState :=
  { jenvVersionEnv := none
    javaHomeEnv := none
    exeExistsCheck := fun _ => false
    resolve := fun p => p
    probe :=
      { isWindows := false
        exeExists := fun _ => false
        runJava := fun _ => .completed "" }
    catalog := [⟨"17.0.5", "temurin-17.0.5", ["jdks", "t17"], some "Temurin", false⟩]
    cwd := []
    markerExists := fun _ => false
    readFileRaw := fun p =>
      if p = ["home", "user", ".jenv", "version"] then some "17" else none
    globalMarkerPath := ["home", "user", ".jenv", "version"]
    globalMarkerFileExists := true }

/-! ## Assignment: `main.set_global_version` with an argument
(src/jenv/main.py, lines 179-223)

Exact name match, else exact resolved-path match, else substring match
over version and name with the ambiguity / not-found aborts.  The
outcome records what happens to the global marker file: `written c`
means `write_version_file(JENV_GLOBAL_VERSION_FILE, target.name)` ran
and the file now holds `c`; the two exit outcomes carry `typer.Exit(1)`
and leave the file untouched. -/

inductive SetGlobalOutcome where
  | written (storedContent : String)
  | ambiguousExit (candidates : List JdkInfo)
  | notFoundExit
deriving DecidableEq

structure AssignWorld where
  catalog : List JdkInfo
  resolveArg : String → Option FsPath

/-- The substring stage's predicate:
`version_name in jdk.version or version_name in jdk.name`. -/
def substrMatch (version_name : String) (j : JdkInfo) : Bool :=
  pyContains version_name j.version || pyContains version_name j.name

def set_global_version (w : AssignWorld) (version_name : String) :
    SetGlobalOutcome :=
  match w.catalog.find? (fun j => decide (j.name = version_name)) with
  | some j => .written (pyStrip j.name)
  | none =>
    let byPath : Option JdkInfo :=
      match w.resolveArg version_name with
      | some p => w.catalog.find? (fun j => decide (j.path = p))
      | none => none
    match byPath with
    | some j => .written (pyStrip j.name)
    | none =>
      match w.catalog.filter (substrMatch version_name) with
      | [j] => .written (pyStrip j.name)
      | [] => .notFoundExit
      | js => .ambiguousExit js

/-- World refuting C3 as stated: both entries contain the token
`"/w/17"` in their version, neither name equals it, but the token
resolves as a filesystem path to the first entry's home. -/
def assignWorldC3 : AssignWorld :=
  { catalog := [⟨"x/w/17", "alpha", ["w", "17"], none, false⟩,
                ⟨"y/w/170", "beta", ["j", "b"], none, false⟩]
    resolveArg := fun s => if s = "/w/17" then some ["w", "17"] else none }

/-- World for the C3 (amended) witness: two entries both containing
`"17"`, token not a resolvable path. -/
def assignWorldC3amb : AssignWorld :=
  { catalog := [⟨"17.0.1", "temurin-17.0.1", ["a"], none, false⟩,
                ⟨"17.0.2", "zulu-17.0.2", ["b"], none, false⟩]
    resolveArg := fun _ => none }

/-! ## Dispatcher: `main.internal_exec_command`
(src/jenv/main.py, lines 756-818)

On POSIX the function hands control to `os.execvpe` (modeled by the
`replaced` outcome carrying the program, the exact argument vector and
the exact environment).  On Windows it calls `subprocess.run` and then
raises `typer.Exit(completed_process.returncode)` — but that raise sits
inside the `try` block and `typer.Exit` derives from `RuntimeError`, so
the generic `except Exception` handler catches it and re-raises
`typer.Exit(code=126)`: the child's exit code is discarded. -/

inductive ExecErr where
  | fileNotFound
  | other

structure ExecWorld where
  resolver : ResolveState
  isExecFile : FsPath → Bool
  baseEnv : String → Option String
  runChildCode : FsPath → List String → (String → Option String) → Int
  execvpeErr : Option ExecErr

inductive ExecOutcome where
  | exitNoActiveJdk
  | exitNotFound
  | exitLaunchFailure
  | replaced (prog : String) (argv : List String) (env : String → Option String)

def internal_exec_command (w : ExecWorld) (command_name : String)
    (command_args : List String) : ExecOutcome :=
  match get_currently_active_jdk w.resolver with
  | none => .exitNoActiveJdk
  | some active =>
    let isWin := w.resolver.probe.isWindows
    let executable_name_to_find :=
      if isWin && !pyEndsWith ".exe" (pyLower command_name) then
        command_name ++ ".exe"
      else command_name
    let cmd_path := active.path ++ ["bin", executable_name_to_find]
    let cmdResolved : Option FsPath :=
      if w.isExecFile cmd_path then some cmd_path
      else if isWin && pyEndsWith ".exe" (pyLower executable_name_to_find) then
        let alt := active.path ++ ["bin", command_name]
        if w.isExecFile alt then some alt else none
      else none
    match cmdResolved with
    | none => .exitNotFound
    | some cp =>
      let env1 : String → Option String := fun k =>
        if k = "JAVA_HOME" then some (pathStr active.path) else w.baseEnv k
      let jdk_bin := pathStr (active.path ++ ["bin"])
      let pathSepStr := if isWin then ";" else ":"
      let env2 : String → Option String := fun k =>
        if k = "PATH" then some (jdk_bin ++ pathSepStr ++ ((env1 "PATH").getD ""))
        else env1 k
      let argv := pathStr cp :: command_args
      if isWin then
        let _ := w.runChildCode cp argv env2
        .exitLaunchFailure
      else
        match w.execvpeErr with
        | none => .replaced (pathStr cp) argv env2
        | some .fileNotFound => .exitNotFound
        | some .other => .exitLaunchFailure

/-- A POSIX resolver state whose global marker activates the JDK at
`/j`. -/
def stExecPosix : ResolveState :=
  { jenvVersionEnv := none
    javaHomeEnv := none
    exeExistsCheck := fun _ => false
    resolve := fun p => p
    probe :=
      { isWindows := false
        exeExists := fun _ => true
        runJava := fun _ => .completed "java.version = 17.0.9" }
    catalog := [⟨"17.0.9", "j17", ["j"], none, false⟩]
    cwd := []
    markerExists := fun _ => false
    readFileRaw := fun p =>
      if p = [".jenv", "version"] then some "j17" else none
    globalMarkerPath := [".jenv", "version"]
    globalMarkerFileExists := true }

/-- The same situation on Windows (`java.exe` under the JDK's bin). -/
def stExecWin : ResolveState :=
  { stExecPosix with
    probe :=
      { isWindows := true
        exeExists := fun _ => true
        runJava := fun _ => .completed "java.version = 17.0.9" } }

def execWorldC5posix : ExecWorld :=
  { resolver := stExecPosix
    isExecFile := fun p => p = ["j", "bin", "java"]
    baseEnv := fun k =>
      if k = "PATH" then some "/usr/bin" else
      if k = "HOME" then some "/home/u" else none
    runChildCode := fun _ _ _ => 0
    execvpeErr := none }

def execWorldC5win : ExecWorld :=
  { resolver := stExecWin
    isExecFile := fun p => p = ["j", "bin", "java.exe"]
    baseEnv := fun k =>
      if k = "PATH" then some "C:\\Windows" else none
    runChildCode := fun _ _ _ => 0
    execvpeErr := none }

/-! ## Helper lemmas about the string primitives -/

lemma dropWhile_head_false {p : Char → Bool} {l : List Char} {c : Char}
    {cs : List Char} (h : l.dropWhile p = c :: cs) : p c = false := by
  have hid : (l.dropWhile p).dropWhile p = l.dropWhile p :=
    List.dropWhile_idempotent p l
  rw [h, List.dropWhile_cons] at hid
  by_cases hc : p c
  · rw [if_pos hc] at hid
    have hlen : (cs.dropWhile p).length ≤ cs.length :=
      (List.dropWhile_sublist p).length_le
    rw [hid] at hlen
    simp at hlen
  · simpa using hc

lemma dropWhile_append_all {p : Char → Bool} {xs : List Char}
    (h : ∀ x ∈ xs, p x = true) (ys : List Char) :
    (xs ++ ys).dropWhile p = ys.dropWhile p := by
  induction xs with
  | nil => rfl
  | cons a as ih =>
    rw [List.cons_append, List.dropWhile_cons, if_pos (h a (by simp))]
    exact ih fun x hx => h x (by simp [hx])

lemma takeWhile_append_all {p : Char → Bool} {xs : List Char}
    (h : ∀ x ∈ xs, p x = true) (ys : List Char) :
    (xs ++ ys).takeWhile p = xs ++ ys.takeWhile p := by
  induction xs with
  | nil => rfl
  | cons a as ih =>
    rw [List.cons_append, List.takeWhile_cons, if_pos (h a (by simp)),
      ih fun x hx => h x (by simp [hx]), List.cons_append]

lemma dropWhile_rdropWhile_self (p : Char → Bool) (l : List Char)
    (hl : l.dropWhile p = l) : (l.rdropWhile p).dropWhile p = l.rdropWhile p := by
  obtain ⟨t, ht⟩ := List.rdropWhile_prefix p l
  cases hB : l.rdropWhile p with
  | nil => rfl
  | cons c cs =>
    have hlc : l = c :: (cs ++ t) := by rw [← ht, hB, List.cons_append]
    have hc : p c = false := by
      apply dropWhile_head_false (l := l)
      rw [hl, hlc]
    rw [List.dropWhile_cons, if_neg (by simp [hc])]

lemma pyStripL_idem (l : List Char) : pyStripL (pyStripL l) = pyStripL l := by
  unfold pyStripL
  rw [dropWhile_rdropWhile_self pyIsSpace (l.dropWhile pyIsSpace)
    (List.dropWhile_idempotent pyIsSpace l), List.rdropWhile_idempotent]

lemma pyStrip_idem (s : String) : pyStrip (pyStrip s) = pyStrip s :=
  congrArg String.mk (pyStripL_idem s.data)

lemma splitOnChar_ne_nil (sep : Char) (l : List Char) :
    splitOnChar sep l ≠ [] := by
  cases l with
  | nil => simp [splitOnChar]
  | cons c cs =>
    simp only [splitOnChar]
    split
    · simp
    · split <;> simp

lemma splitOnChar_no_sep {sep : Char} {l : List Char} (h : sep ∉ l) :
    splitOnChar sep l = [l] := by
  induction l with
  | nil => rfl
  | cons c cs ih =>
    simp only [List.mem_cons, not_or] at h
    have hc : ¬ c = sep := fun hh => h.1 hh.symm
    simp only [splitOnChar, if_neg hc, ih h.2]

lemma splitOnChar_append_sep {sep : Char} {l : List Char} (h : sep ∉ l)
    (rest : List Char) :
    splitOnChar sep (l ++ sep :: rest) = l :: splitOnChar sep rest := by
  induction l with
  | nil => simp [splitOnChar]
  | cons c cs ih =>
    simp only [List.mem_cons, not_or] at h
    have hc : ¬ c = sep := fun hh => h.1 hh.symm
    rw [List.cons_append]
    simp only [splitOnChar, if_neg hc]
    rw [ih h.2]

lemma splitOnChar_joinWithChar {sep : Char} :
    ∀ (ls : List (List Char)), ls ≠ [] → (∀ piece ∈ ls, sep ∉ piece) →
    splitOnChar sep (joinWithChar sep ls) = ls := by
  intro ls
  induction ls with
  | nil => intro h; exact absurd rfl h
  | cons l ls' ih =>
    intro _ hfree
    cases ls' with
    | nil =>
      show splitOnChar sep (joinWithChar sep [l]) = [l]
      simp only [joinWithChar]
      exact splitOnChar_no_sep (hfree l (by simp))
    | cons l2 ls'' =>
      show splitOnChar sep (l ++ sep :: joinWithChar sep (l2 :: ls'')) = _
      rw [splitOnChar_append_sep (hfree l (by simp)),
        ih (by simp) fun piece hp => hfree piece (by simp [hp])]

lemma mem_splitOnChar_not_mem (sep : Char) :
    ∀ (l : List Char), ∀ piece ∈ splitOnChar sep l, sep ∉ piece := by
  intro l
  induction l with
  | nil =>
    intro piece hp
    simp only [splitOnChar, List.mem_singleton] at hp
    simp [hp]
  | cons c cs ih =>
    intro piece hp
    simp only [splitOnChar] at hp
    by_cases hc : c = sep
    · rw [if_pos hc] at hp
      rcases List.mem_cons.mp hp with h | h
      · simp [h]
      · exact ih piece h
    · rw [if_neg hc] at hp
      cases hs : splitOnChar sep cs with
      | nil => exact absurd hs (splitOnChar_ne_nil sep cs)
      | cons q qs =>
        rw [hs] at hp
        rcases List.mem_cons.mp hp with h | h
        · subst h
          intro hmem
          rcases List.mem_cons.mp hmem with h1 | h1
          · exact hc h1.symm
          · exact ih q (by rw [hs]; simp) h1
        · exact ih piece (by rw [hs]; simp [h])

lemma mem_cleanVersionLine {l : List Char} {x : Char}
    (hx : x ∈ cleanVersionLine l) : x ∈ l := by
  unfold cleanVersionLine at hx
  simp only at hx
  split at hx
  · exact hx
  · rcases List.mem_append.mp hx with h | h
    · exact (List.takeWhile_sublist _).subset h
    · exact (List.dropWhile_sublist _).subset ((List.takeWhile_sublist _).subset h)

lemma cleanVersionLine_idem (l : List Char) :
    cleanVersionLine (cleanVersionLine l) = cleanVersionLine l := by
  cases hr : l.dropWhile isSepChar with
  | nil =>
    have hself : cleanVersionLine l = l := by
      unfold cleanVersionLine; rw [hr]; simp
    rw [hself, hself]
  | cons r rs =>
    have hrF : isSepChar r = false := dropWhile_head_false hr
    have hinner : cleanVersionLine l =
        l.takeWhile isSepChar ++ (r :: rs).takeWhile notSepChar := by
      unfold cleanVersionLine; rw [hr]; simp
    have hpre : ∀ x ∈ l.takeWhile isSepChar, isSepChar x = true :=
      fun x hx => List.mem_takeWhile_imp hx
    have hRhead : (r :: rs).takeWhile notSepChar =
        r :: rs.takeWhile notSepChar := by
      rw [List.takeWhile_cons, if_pos (by simp [notSepChar, hrF])]
    have h1 : (l.takeWhile isSepChar ++ (r :: rs).takeWhile notSepChar).dropWhile
        isSepChar = (r :: rs).takeWhile notSepChar := by
      rw [dropWhile_append_all hpre, hRhead, List.dropWhile_cons,
        if_neg (by simp [hrF]), ← hRhead]
    have h2 : (l.takeWhile isSepChar ++ (r :: rs).takeWhile notSepChar).takeWhile
        isSepChar = l.takeWhile isSepChar := by
      rw [takeWhile_append_all hpre, hRhead, List.takeWhile_cons,
        if_neg (by simp [hrF]), List.append_nil]
    have h3 : ((r :: rs).takeWhile notSepChar).takeWhile notSepChar =
        (r :: rs).takeWhile notSepChar :=
      List.takeWhile_eq_self_iff.mpr fun x hx => List.mem_takeWhile_imp hx
    rw [hinner]
    unfold cleanVersionLine
    simp only [h1, h2, h3]
    rw [if_neg (by rw [hRhead]; simp)]

lemma cleanVersionL_idem (l : List Char) :
    cleanVersionL (cleanVersionL l) = cleanVersionL l := by
  unfold cleanVersionL
  have hfree : ∀ piece ∈ (splitOnChar '\n' l).map cleanVersionLine,
      '\n' ∉ piece := by
    intro piece hp
    rcases List.mem_map.mp hp with ⟨q, hq, rfl⟩
    intro hmem
    exact mem_splitOnChar_not_mem '\n' l q hq (mem_cleanVersionLine hmem)
  have hne : (splitOnChar '\n' l).map cleanVersionLine ≠ [] := by
    intro h
    exact splitOnChar_ne_nil '\n' l (List.map_eq_nil_iff.mp h)
  rw [splitOnChar_joinWithChar _ hne hfree, List.map_map]
  congr 1
  exact List.map_congr_left fun piece _ => cleanVersionLine_idem piece

/-! ## C7 -/

/-- Claim C7: version cleaning truncates the raw string at the first
`+`, `-` or whitespace character after the leading run of other
characters (`17.0.5+8-LTS ↦ 17.0.5`, `11.0.12 ↦ 11.0.12`), and cleaning
is idempotent on every raw string. -/
theorem C7_version_cleaning :
    cleanVersion "17.0.5+8-LTS" = "17.0.5" ∧
    cleanVersion "11.0.12" = "11.0.12" ∧
    (∀ s : String, cleanVersion (cleanVersion s) = cleanVersion s) ∧
    (∀ (c : Char) (cs : List Char), isSepChar c = false → '\n' ∉ c :: cs →
      cleanVersionL (c :: cs) = (c :: cs).takeWhile notSepChar) := by
  refine ⟨by decide, by decide, fun s => ?_, fun c cs hc hnl => ?_⟩
  · exact congrArg String.mk (cleanVersionL_idem s.data)
  · unfold cleanVersionL
    rw [splitOnChar_no_sep hnl]
    show cleanVersionLine (c :: cs) = _
    simp [cleanVersionLine, List.dropWhile_cons, List.takeWhile_cons, hc]

/-- Witness for C7's conditional truncation clause at the concrete raw
string `17.0.5+8`. -/
theorem C7_version_cleaning_witness :
    cleanVersionL ('1' :: "7.0.5+8".data) =
      ('1' :: "7.0.5+8".data).takeWhile notSepChar :=
  C7_version_cleaning.2.2.2 '1' "7.0.5+8".data (by decide) (by decide)

/-! ## C6 -/

/-- Claim C6 is right about the intended behavior but the code breaks
its totality clause.  The five enumerated failure modes that the code
does handle — missing `bin/java`, timeout, `FileNotFoundError`,
undecodable output, output with no matching version property — all
yield the uniform "no version" result (last five conjuncts).  But
"each failure mode ... no failure ever propagates as an exception to
the scanning caller" is false of the program: the `except` clause at
discovery.py line 63 lists only the three caught types, so a spawn
failure of any other type escapes.  At the failing input — a candidate
home whose `bin/java` exists but is not executable, so `subprocess.run`
raises `PermissionError` (first conjunct); likewise a directory named
`java`, raising `IsADirectoryError` (second conjunct) — the probe
raises instead of returning "no version", crashing the scanning
caller. -/
theorem C6_probe_uncaught_spawn_failure :
    get_java_version_from_path_full
      ⟨false, fun _ => true, fun _ => .permissionError⟩ ["opt", "jdk"] =
      .error .permissionError ∧
    get_java_version_from_path_full
      ⟨false, fun _ => true, fun _ => .isADirectoryError⟩ ["opt", "jdk"] =
      .error .isADirectoryError ∧
    get_java_version_from_path_full
      ⟨false, fun _ => false, fun _ => .completed "java.version = 17"⟩
      ["opt", "jdk"] = .ok none ∧
    get_java_version_from_path_full
      ⟨false, fun _ => true, fun _ => .timeoutExpired⟩ ["opt", "jdk"] =
      .ok none ∧
    get_java_version_from_path_full
      ⟨false, fun _ => true, fun _ => .fileNotFoundError⟩ ["opt", "jdk"] =
      .ok none ∧
    get_java_version_from_path_full
      ⟨false, fun _ => true, fun _ => .unicodeDecodeError⟩ ["opt", "jdk"] =
      .ok none ∧
    get_java_version_from_path_full
      ⟨false, fun _ => true, fun _ => .completed "no properties at all"⟩
      ["opt", "jdk"] = .ok none := by
  exact ⟨rfl, rfl, rfl, rfl, rfl, rfl, rfl⟩

/-! ## C4 -/

/-- Claim C4: `JdkInfo` identity is path-only — two records with equal
`path` compare equal and hash equal (for every hash function on paths)
no matter how their other fields differ, and two records with different
paths never compare equal. -/
theorem C4_jdkinfo_identity_is_path_only (a b : JdkInfo) :
    (a.path = b.path → JdkInfo.pyEq a b = true) ∧
    (a.path = b.path →
      ∀ hashPath : FsPath → Nat, a.pyHash hashPath = b.pyHash hashPath) ∧
    (a.path ≠ b.path → JdkInfo.pyEq a b = false) := by
  refine ⟨fun h => ?_, fun h hp => ?_, fun h => ?_⟩
  · simp [JdkInfo.pyEq, h]
  · simp [JdkInfo.pyHash, h]
  · simp [JdkInfo.pyEq, h]

/-- Witness for C4: two records sharing a path but differing in every
other field are equal and hash alike; changing only the path breaks
equality. -/
theorem C4_jdkinfo_identity_witness :
    JdkInfo.pyEq ⟨"17.0.5", "temurin-17.0.5", ["opt", "jdk"], some "Temurin", true⟩
      ⟨"11.0.2", "other-11.0.2", ["opt", "jdk"], none, false⟩ = true ∧
    JdkInfo.pyHash (fun p => p.length)
        ⟨"17.0.5", "temurin-17.0.5", ["opt", "jdk"], some "Temurin", true⟩ =
      JdkInfo.pyHash (fun p => p.length)
        ⟨"11.0.2", "other-11.0.2", ["opt", "jdk"], none, false⟩ ∧
    JdkInfo.pyEq ⟨"17.0.5", "temurin-17.0.5", ["opt", "jdk"], some "Temurin", true⟩
      ⟨"17.0.5", "temurin-17.0.5", ["opt", "jdk2"], some "Temurin", true⟩ = false := by
  refine ⟨(C4_jdkinfo_identity_is_path_only _ _).1 rfl,
    (C4_jdkinfo_identity_is_path_only _ _).2.1 rfl _,
    (C4_jdkinfo_identity_is_path_only _ _).2.2 (by decide)⟩

/-! ## C9 -/

/-- Claim C9 as stated is false on the code: rule 1 tests `"temurin"`
against the full lower-cased path but `"adoptium"` only against the
lower-cased leaf directory name.  For home `/opt/adoptium/jdk-17` the
full path contains `"adoptium"`, yet rule 2 fires (leaf starts with
`"jdk-"` without `"openjdk"`) and the vendor is Oracle, not Temurin. -/
theorem C9_vendor_rule1_counterexample :
    pyContains "adoptium" (pyLower (pathStr ["opt", "adoptium", "jdk-17"])) = true ∧
    (get_jdk_name_and_vendor ["opt", "adoptium", "jdk-17"] (some "17.0.1")).2 =
      some "Oracle" := by
  constructor <;> decide

/-- Claim C9 corrected: vendor rule 1 assigns Temurin, before any later
rule is consulted, whenever the lower-cased full path contains
`"temurin"` or the lower-cased leaf directory name contains
`"adoptium"` (`"adoptium"` in the full path only does not trigger it). -/
theorem C9_vendor_rule1_amended (java_home : FsPath) (version : Option String)
    (h : pyContains "temurin" (pyLower (pathStr java_home)) = true ∨
      pyContains "adoptium" (pyLower (pathName java_home)) = true) :
    (get_jdk_name_and_vendor java_home version).2 = some "Temurin" := by
  unfold get_jdk_name_and_vendor
  rcases h with h | h <;> simp [h]

/-- Witness for C9 (amended) at the concrete home
`/opt/temurin-17-jdk`. -/
theorem C9_vendor_rule1_amended_witness :
    (get_jdk_name_and_vendor ["opt", "temurin-17-jdk"] (some "17.0.1")).2 =
      some "Temurin" :=
  C9_vendor_rule1_amended ["opt", "temurin-17-jdk"] (some "17.0.1")
    (Or.inl (by decide))

/-! ## C8 -/

/-- Claim C8 as stated is false on the code: in `scanWorldC8` the root
`/r` contains a regular file `bin/java` (so it is a JDK home in the
claim's sense), yet because its probe yields no version the scanner does
not record it and does inspect its children — the child `/r/c` is the
single recorded JDK. -/
theorem C8_scan_descent_counterexample :
    scanWorldC8.isFile
      (["r"] ++ ["bin", javaExeName scanWorldC8.probe.isWindows]) = true ∧
    (processRoot scanWorldC8 ([], []) ["r"]).2.map (fun j => j.path) =
      [["r", "c"]] := by
  constructor <;> decide

/-- Claim C8 corrected: a scan root with a regular `bin/java` file whose
version probe also succeeds (non-empty version) is recorded as itself
and its children are never inspected — the scan result does not depend
on the `children` oracle at all; descent happens only when the root is
not such a probe-verified JDK home. -/
theorem C8_scan_descent_amended (w : ScanWorld) (cf : FsPath → List FsPath)
    (processed : List FsPath) (found : List JdkInfo) (base : FsPath) (v : String)
    (hex : w.pathExists base = true) (hdir : w.isDir base = true)
    (hnew : resolveOr w base ∉ processed)
    (hfile : w.isFile (resolveOr w base ++ ["bin", javaExeName w.probe.isWindows]) = true)
    (hprobe : get_java_version_from_path w.probe (resolveOr w base) = some v)
    (hv : v ≠ "") :
    processRoot w (processed, found) base =
      (processed ++ [resolveOr w base], found ++ [mkJdkInfo w (resolveOr w base) v]) ∧
    processRoot { w with children := cf } (processed, found) base =
      processRoot w (processed, found) base := by
  have h1 : processRoot w (processed, found) base =
      (processed ++ [resolveOr w base], found ++ [mkJdkInfo w (resolveOr w base) v]) := by
    simp [processRoot, hex, hdir, hnew, hfile, hprobe, hv]
  have h2 : processRoot { w with children := cf } (processed, found) base =
      (processed ++ [resolveOr w base], found ++ [mkJdkInfo w (resolveOr w base) v]) := by
    have hro : resolveOr { w with children := cf } base = resolveOr w base := rfl
    have hmk : ∀ (p : FsPath) (s : String),
        mkJdkInfo { w with children := cf } p s = mkJdkInfo w p s := fun _ _ => rfl
    simp [processRoot, hro, hmk, hex, hdir, hnew, hfile, hprobe, hv]
  exact ⟨h1, h2.trans h1.symm⟩

/-- Witness for C8 (amended): on `scanWorldC8good` the root `/g` is
recorded and swapping in a nonempty `children` oracle changes nothing. -/
theorem C8_scan_descent_amended_witness :
    processRoot scanWorldC8good ([], []) ["g"] =
      ([["g"]], [mkJdkInfo scanWorldC8good ["g"] "21"]) ∧
    processRoot { scanWorldC8good with children := fun _ => [["g", "x"]] }
        ([], []) ["g"] =
      processRoot scanWorldC8good ([], []) ["g"] := by
  have h := C8_scan_descent_amended scanWorldC8good (fun _ => [["g", "x"]])
    [] [] ["g"] "21" rfl (by decide) (by simp) (by decide) (by decide) (by decide)
  exact ⟨h.1, h.2⟩

/-! ## C10 -/

/-- Claim C10: marker-file round trip — writing any version string and
reading it back yields the string trimmed of leading and trailing
whitespace, so a token stored with a trailing newline still compares
equal to a catalog name at resolution time. -/
theorem C10_marker_file_roundtrip :
    (∀ s : String,
      read_version_file_from (some (write_version_file s)) = some (pyStrip s)) ∧
    read_version_file_from (some (write_version_file "temurin-17\n")) =
      some "temurin-17" := by
  constructor
  · intro s
    simp [read_version_file_from, write_version_file, pyStrip_idem]
  · decide

/-! ## C1 / C2: the precedence chain -/

lemma findLocalMarkerAux_eq_none (f : FsPath → Bool) (hf : ∀ d, f d = false) :
    ∀ l : List String, findLocalMarkerAux f l = none := by
  intro l
  induction l with
  | nil => simp [findLocalMarkerAux, hf]
  | cons d ds ih => simp [findLocalMarkerAux, hf, ih]

lemma findLocalMarkerDir_eq_none (f : FsPath → Bool) (hf : ∀ d, f d = false) :
    ∀ l : FsPath, findLocalMarkerDir f l = none :=
  fun l => findLocalMarkerAux_eq_none f hf l.reverse

/-- Claim C1: the four-source precedence chain.  With the shell
variable naming entry `A` (corroborated by a live `JAVA_HOME` at `A`'s
home), a local marker naming `B` and the global marker naming `C` — all
distinct and resolvable — resolution returns `A` tagged shell; with the
shell variable cleared it returns `B` tagged local; with shell and
local cleared it returns `C` tagged global; with all three cleared and
`JAVA_HOME` still probe-valid it returns `A` tagged `JAVA_HOME`; with
everything cleared it returns no active JDK. -/
theorem C1_precedence_chain
    (st : ResolveState) (A B C : JdkInfo) (vh : String) (dLoc : FsPath)
    (rawL rawG : String)
    (hCat : st.catalog = [A, B, C])
    (hEnv : st.jenvVersionEnv = some A.name)
    (hA : A.name ≠ "")
    (hHome : get_active_jdk_path_from_env st = some A.path)
    (hProbe : get_java_version_from_path st.probe A.path = some vh)
    (hVh : vh ≠ "")
    (hLoc : findLocalMarkerDir st.markerExists st.cwd = some dLoc)
    (hRawL : st.readFileRaw (dLoc ++ [JENV_VERSION_FILE_NAME]) = some rawL)
    (hStripL : pyStrip rawL = B.name)
    (hB : B.name ≠ "")
    (hGEx : st.globalMarkerFileExists = true)
    (hRawG : st.readFileRaw st.globalMarkerPath = some rawG)
    (hStripG : pyStrip rawG = C.name)
    (hC : C.name ≠ "")
    (hAB : A.name ≠ B.name) (hPAB : pathStr A.path ≠ B.name)
    (hAC : A.name ≠ C.name) (hPAC : pathStr A.path ≠ C.name)
    (hBC : B.name ≠ C.name) (hPBC : pathStr B.path ≠ C.name) :
    get_currently_active_jdk st = some (shellTagged A) ∧
    get_currently_active_jdk (clearShell st) =
      some (localTagged (pathStr (dLoc ++ [JENV_VERSION_FILE_NAME])) B) ∧
    get_currently_active_jdk (clearLocal (clearShell st)) =
      some (globalTagged (pathStr st.globalMarkerPath) C) ∧
    get_currently_active_jdk (clearGlobal (clearLocal (clearShell st))) =
      some (javaHomeTagged A) ∧
    get_currently_active_jdk
      (clearJavaHome (clearGlobal (clearLocal (clearShell st)))) = none := by
  have hnomark : ∀ l, findLocalMarkerDir (fun _ => false) l = none :=
    findLocalMarkerDir_eq_none _ (fun _ => rfl)
  -- scenario 1: everything set, the shell scope wins
  have r1 : get_currently_active_jdk st = some (shellTagged A) := by
    have s1 : shellStep st = some (shellTagged A) := by
      simp [shellStep, hEnv, hA, hHome, hProbe, hVh, hCat, List.find?_cons]
    simp [get_currently_active_jdk, s1]
  -- scenario 2: shell cleared, the local marker wins
  have r2 : get_currently_active_jdk (clearShell st) =
      some (localTagged (pathStr (dLoc ++ [JENV_VERSION_FILE_NAME])) B) := by
    have s2s : shellStep (clearShell st) = none := rfl
    have s2l : localStep (clearShell st) =
        some (localTagged (pathStr (dLoc ++ [JENV_VERSION_FILE_NAME])) B) := by
      simp [localStep, clearShell, hLoc, read_version_file,
        read_version_file_from, hRawL, hStripL, hB, hCat, hAB, hPAB,
        List.find?_cons]
    simp [get_currently_active_jdk, s2s, s2l]
  -- scenario 3: shell and local cleared, the global marker wins
  have r3 : get_currently_active_jdk (clearLocal (clearShell st)) =
      some (globalTagged (pathStr st.globalMarkerPath) C) := by
    have s3s : shellStep (clearLocal (clearShell st)) = none := rfl
    have s3l : localStep (clearLocal (clearShell st)) = none := by
      simp [localStep, clearLocal, clearShell, hnomark]
    have s3g : globalStep (clearLocal (clearShell st)) =
        some (globalTagged (pathStr st.globalMarkerPath) C) := by
      simp [globalStep, clearLocal, clearShell, hGEx, read_version_file,
        read_version_file_from, hRawG, hStripG, hC, hCat, hAC, hPAC, hBC,
        hPBC, List.find?_cons]
    simp [get_currently_active_jdk, s3s, s3l, s3g]
  -- scenario 4: all three scopes cleared, JAVA_HOME fallback
  have r4 : get_currently_active_jdk (clearGlobal (clearLocal (clearShell st))) =
      some (javaHomeTagged A) := by
    have s4s : shellStep (clearGlobal (clearLocal (clearShell st))) = none := rfl
    have s4l : localStep (clearGlobal (clearLocal (clearShell st))) = none := by
      simp [localStep, clearGlobal, clearLocal, clearShell, hnomark]
    have s4g : globalStep (clearGlobal (clearLocal (clearShell st))) =
        none := rfl
    have hHome4 :
        get_active_jdk_path_from_env (clearGlobal (clearLocal (clearShell st))) =
        some A.path := hHome
    have hPr4 : get_java_version_from_path
        (clearGlobal (clearLocal (clearShell st))).probe A.path = some vh :=
      hProbe
    have hCat4 : (clearGlobal (clearLocal (clearShell st))).catalog =
        [A, B, C] := hCat
    have s4f : javaHomeFallbackStep (clearGlobal (clearLocal (clearShell st))) =
        some (javaHomeTagged A) := by
      unfold javaHomeFallbackStep
      rw [hHome4]
      simp [hPr4, hVh, hCat4, List.find?_cons]
    simp [get_currently_active_jdk, s4s, s4l, s4g, s4f]
  -- scenario 5: everything cleared, no active JDK
  have r5 : get_currently_active_jdk
      (clearJavaHome (clearGlobal (clearLocal (clearShell st)))) = none := by
    have s5s : shellStep
        (clearJavaHome (clearGlobal (clearLocal (clearShell st)))) = none := rfl
    have s5l : localStep
        (clearJavaHome (clearGlobal (clearLocal (clearShell st)))) = none := by
      simp [localStep, clearJavaHome, clearGlobal, clearLocal, clearShell,
        hnomark]
    have s5g : globalStep
        (clearJavaHome (clearGlobal (clearLocal (clearShell st)))) = none := rfl
    have s5f : javaHomeFallbackStep
        (clearJavaHome (clearGlobal (clearLocal (clearShell st)))) = none := rfl
    simp [get_currently_active_jdk, s5s, s5l, s5g, s5f]
  exact ⟨r1, r2, r3, r4, r5⟩

/-- Witness for C1 on the concrete state `stC1` (catalog
`[jdkA, jdkB, jdkC]`, shell names `jdkA`, local marker names `jdkB`,
global marker names `jdkC`, `JAVA_HOME = /jdks/a`). -/
theorem C1_precedence_chain_witness :
    get_currently_active_jdk stC1 = some (shellTagged jdkA) ∧
    get_currently_active_jdk (clearShell stC1) =
      some (localTagged
        (pathStr (["home", "user", "proj"] ++ [JENV_VERSION_FILE_NAME])) jdkB) ∧
    get_currently_active_jdk (clearLocal (clearShell stC1)) =
      some (globalTagged (pathStr stC1.globalMarkerPath) jdkC) ∧
    get_currently_active_jdk (clearGlobal (clearLocal (clearShell stC1))) =
      some (javaHomeTagged jdkA) ∧
    get_currently_active_jdk
      (clearJavaHome (clearGlobal (clearLocal (clearShell stC1)))) = none :=
  C1_precedence_chain stC1 jdkA jdkB jdkC "17.0.1" ["home", "user", "proj"]
    "zulu-11.0.2\n" "oracle-8.0.0" rfl rfl (by decide) (by decide) (by decide)
    (by decide) (by decide) (by decide) (by decide) (by decide) rfl (by decide)
    (by decide) (by decide) (by decide) (by decide) (by decide) (by decide)
    (by decide) (by decide)

/-! ## C2 -/

/-- Claim C2 as stated is false on the code: read-time resolution in
the local/global steps performs no substring matching at all.  In
`stC2` the global marker token `"17"` is a substring of exactly one
catalog entry's version and name while equaling no entry's name or path
string, yet resolution selects nothing. -/
theorem C2_read_time_substring_counterexample :
    pyContains "17" "17.0.5" = true ∧
    pyContains "17" "temurin-17.0.5" = true ∧
    ("17" : String) ≠ "temurin-17.0.5" ∧
    ("17" : String) ≠ pathStr ["jdks", "t17"] ∧
    stC2.catalog =
      [⟨"17.0.5", "temurin-17.0.5", ["jdks", "t17"], some "Temurin", false⟩] ∧
    stC2.globalMarkerFileExists = true ∧
    read_version_file stC2 stC2.globalMarkerPath = some "17" ∧
    get_currently_active_jdk stC2 = none := by
  refine ⟨by decide, by decide, by decide, by decide, rfl, rfl, by decide,
    by decide⟩

/-- Claim C2 corrected: read-time token matching in the local and
global steps uses only exact canonical-name or exact path-string
equality (first catalog entry matching either wins); a token that
equals no entry's name or path string — no matter how many entries
contain it as a substring — leaves that step unresolved and resolution
falls through to the next precedence level without erroring. -/
theorem C2_read_time_matching_amended :
    (∀ (st : ResolveState) (d : FsPath) (raw tok : String),
      st.jenvVersionEnv = none →
      findLocalMarkerDir st.markerExists st.cwd = some d →
      st.readFileRaw (d ++ [JENV_VERSION_FILE_NAME]) = some raw →
      pyStrip raw = tok → tok ≠ "" →
      (∀ j ∈ st.catalog, j.name ≠ tok ∧ pathStr j.path ≠ tok) →
      get_currently_active_jdk st =
        (match globalStep st with
         | some j => some j
         | none => javaHomeFallbackStep st)) ∧
    (∀ (st : ResolveState) (raw tok : String) (j : JdkInfo),
      st.jenvVersionEnv = none →
      findLocalMarkerDir st.markerExists st.cwd = none →
      st.globalMarkerFileExists = true →
      st.readFileRaw st.globalMarkerPath = some raw →
      pyStrip raw = tok → tok ≠ "" →
      st.catalog.find? (fun j => decide (j.name = tok) ||
        decide (pathStr j.path = tok)) = some j →
      get_currently_active_jdk st =
        some (globalTagged (pathStr st.globalMarkerPath) j)) ∧
    (∀ (st : ResolveState) (raw tok : String),
      st.jenvVersionEnv = none →
      findLocalMarkerDir st.markerExists st.cwd = none →
      st.globalMarkerFileExists = true →
      st.readFileRaw st.globalMarkerPath = some raw →
      pyStrip raw = tok → tok ≠ "" →
      (∀ j ∈ st.catalog, j.name ≠ tok ∧ pathStr j.path ≠ tok) →
      get_currently_active_jdk st = javaHomeFallbackStep st) := by
  refine ⟨fun st d raw tok hEnv hLoc hRaw hStrip hTok hNo => ?_,
    fun st raw tok j hEnv hLoc hGEx hRaw hStrip hTok hFind => ?_,
    fun st raw tok hEnv hLoc hGEx hRaw hStrip hTok hNo => ?_⟩
  · have hshell : shellStep st = none := by simp [shellStep, hEnv]
    have hfind : st.catalog.find? (fun j => decide (j.name = tok) ||
        decide (pathStr j.path = tok)) = none :=
      List.find?_eq_none.mpr fun j hj => by
        simp [(hNo j hj).1, (hNo j hj).2]
    have hlocal : localStep st = none := by
      simp [localStep, hLoc, read_version_file, read_version_file_from, hRaw,
        hStrip, hTok, hfind]
    simp [get_currently_active_jdk, hshell, hlocal]
  · have hshell : shellStep st = none := by simp [shellStep, hEnv]
    have hlocal : localStep st = none := by simp [localStep, hLoc]
    have hglobal : globalStep st =
        some (globalTagged (pathStr st.globalMarkerPath) j) := by
      simp [globalStep, hGEx, read_version_file, read_version_file_from, hRaw,
        hStrip, hTok, hFind]
    simp [get_currently_active_jdk, hshell, hlocal, hglobal]
  · have hshell : shellStep st = none := by simp [shellStep, hEnv]
    have hlocal : localStep st = none := by simp [localStep, hLoc]
    have hfind : st.catalog.find? (fun j => decide (j.name = tok) ||
        decide (pathStr j.path = tok)) = none :=
      List.find?_eq_none.mpr fun j hj => by
        simp [(hNo j hj).1, (hNo j hj).2]
    have hglobal : globalStep st = none := by
      simp [globalStep, hGEx, read_version_file, read_version_file_from, hRaw,
        hStrip, hTok, hfind]
    simp [get_currently_active_jdk, hshell, hlocal, hglobal]

/-- Witness for C2 (amended): on `stC2` the substring-only token `"17"`
leaves the global step unresolved and resolution falls through to the
(here empty) `JAVA_HOME` fallback. -/
theorem C2_read_time_matching_amended_witness :
    get_currently_active_jdk stC2 = javaHomeFallbackStep stC2 :=
  C2_read_time_matching_amended.2.2 stC2 "17" "17" rfl (by decide) rfl
    (by decide) (by decide) (by decide) (by decide)

/-! ## C3 -/

/-- Claim C3 as stated is false on the code: in `assignWorldC3` both
catalog entries contain the token `"/w/17"` in their version field and
no entry's name equals it, yet assignment does not abort — the exact
resolved-path stage runs before the substring stage, matches the first
entry, and overwrites the marker. -/
theorem C3_ambiguous_assignment_counterexample :
    pyContains "/w/17" "x/w/17" = true ∧
    pyContains "/w/17" "y/w/170" = true ∧
    ("alpha" : String) ≠ "/w/17" ∧
    ("beta" : String) ≠ "/w/17" ∧
    (assignWorldC3.catalog.filter (substrMatch "/w/17")).length = 2 ∧
    set_global_version assignWorldC3 "/w/17" = .written "alpha" := by
  refine ⟨by decide, by decide, by decide, by decide, by decide, by decide⟩

/-- Claim C3 corrected: when at least two catalog entries contain the
token in version or name, no entry's name equals the token, and the
token's filesystem resolution equals no entry's path, assignment
reports the full candidate list and aborts without writing. -/
theorem C3_ambiguous_assignment_amended (w : AssignWorld) (tok : String)
    (hname : ∀ j ∈ w.catalog, j.name ≠ tok)
    (hpath : ∀ p, w.resolveArg tok = some p → ∀ j ∈ w.catalog, j.path ≠ p)
    (hlen : 2 ≤ (w.catalog.filter (substrMatch tok)).length) :
    set_global_version w tok =
      .ambiguousExit (w.catalog.filter (substrMatch tok)) ∧
    ∀ s, set_global_version w tok ≠ .written s := by
  have h1 : w.catalog.find? (fun j => decide (j.name = tok)) = none :=
    List.find?_eq_none.mpr fun x hx => by simp [hname x hx]
  have h2 : (match w.resolveArg tok with
      | some p => w.catalog.find? (fun j => decide (j.path = p))
      | none => none) = (none : Option JdkInfo) := by
    cases hr : w.resolveArg tok with
    | none => rfl
    | some p =>
      exact List.find?_eq_none.mpr fun x hx => by simp [hpath p hr x hx]
  have hmain : set_global_version w tok =
      .ambiguousExit (w.catalog.filter (substrMatch tok)) := by
    unfold set_global_version
    rw [h1]
    simp only [h2]
    cases hf : w.catalog.filter (substrMatch tok) with
    | nil => rw [hf] at hlen; simp at hlen
    | cons a t =>
      cases t with
      | nil => rw [hf] at hlen; simp at hlen
      | cons b t2 => rfl
  exact ⟨hmain, fun s hs => by rw [hmain] at hs; exact SetGlobalOutcome.noConfusion hs⟩

/-- Witness for C3 (amended): token `"17"` matches both entries of
`assignWorldC3amb`, the write is aborted and both candidates are
reported. -/
theorem C3_ambiguous_assignment_amended_witness :
    set_global_version assignWorldC3amb "17" =
      .ambiguousExit (assignWorldC3amb.catalog.filter (substrMatch "17")) :=
  (C3_ambiguous_assignment_amended assignWorldC3amb "17" (by decide)
    (fun p hp => by simp [assignWorldC3amb] at hp) (by decide)).1

/-! ## C5 -/

/-- Claim C5 is right about the intended behavior but the code breaks
its final clause.  On POSIX (`execWorldC5posix`) the entry point
transfers control to exactly the requested binary with the forwarded
arguments unmodified and an environment that copies the caller's with
`JAVA_HOME` set to the active JDK home and the JDK's bin prepended to
`PATH`.  Where process replacement is unavailable (Windows,
`execWorldC5win`) the child's exit code is NOT propagated: the
`typer.Exit(returncode)` raised inside the `try` block derives from
`RuntimeError`, is caught by the generic `except Exception` handler and
replaced by `typer.Exit(code=126)` — here the child exits 0 yet the
dispatcher exits 126. -/
theorem C5_dispatch_exec_and_windows_exit_code :
    (∃ env : String → Option String,
      internal_exec_command execWorldC5posix "java" ["--version"] =
        .replaced (pathStr ["j", "bin", "java"])
          [pathStr ["j", "bin", "java"], "--version"] env ∧
      env "JAVA_HOME" = some (pathStr ["j"]) ∧
      env "PATH" = some (pathStr ["j", "bin"] ++ ":" ++ "/usr/bin") ∧
      env "HOME" = execWorldC5posix.baseEnv "HOME") ∧
    (∀ prog argv env, execWorldC5win.runChildCode prog argv env = 0) ∧
    internal_exec_command execWorldC5win "java" ["--version"] =
      .exitLaunchFailure := by
  refine ⟨⟨_, rfl, rfl, rfl, rfl⟩, fun _ _ _ => rfl, rfl⟩

end Jenv
